import Mathlib

/-!
Shallow embedding of the OAuth / token-lifecycle core of the vibeguess-react
frontend, and proofs of the specification claims about it.

The embedded code lives in:
* `src/project/src/utils/oauth.ts` — PKCE / CSRF helpers and the ephemeral
  sessionStorage wrappers (`validateState`, `storePKCEVerifier`,
  `retrievePKCEVerifier`, `storeOAuthState`, `retrieveOAuthState`);
* `src/unnamed/part_006` — the auth service (`AuthService.handleCallback`,
  `refreshToken`, `getCurrentUser`, `logout`, `isAuthenticated`,
  `getStoredTokens`, `storeTokens`, `clearTokens`) and the auth store's
  `isTokenExpired` helper.

Modelling conventions:
* A JS string-or-null is `Option String`; JS truthiness of such a value
  (`if (s)`) is `jsTruthy`: `null` and `""` are falsy.
* `localStorage` / `sessionStorage` are a `Storage` record holding the four
  keys this code touches.  The `auth_tokens` entry is
  `Option (Option AuthTokens)`: `none` = key absent, `some none` = a stored
  string that fails `JSON.parse`, `some (some t)` = parses to `t`.
* Network I/O is passed in as an explicit `FetchResult` environment;
  functions return the outcome, the post-state of storage, and the number of
  network requests they issued.
* JS 32-bit integer coercion on `|` and `^` (`validateState`'s accumulator)
  is an explicit `% 4294967296`.
-/

namespace VibeGuess

/-- The `AuthTokens` interface of `src/project/src/types/auth.ts`. -/
structure AuthTokens where
  access_token : String
  refresh_token : String
  expires_in : Nat
  token_type : String
  scope : String
deriving DecidableEq

/-- The browser storage keys touched by the auth code: `auth_tokens` and
`auth_user` in localStorage, `oauth_code_verifier` and `oauth_state` in
sessionStorage. -/
structure Storage where
  auth_tokens : Option (Option AuthTokens)
  auth_user : Option String
  oauth_code_verifier : Option String
  oauth_state : Option String
deriving DecidableEq

/-- JS truthiness of a `string | null` value: `null` and `""` are falsy. -/
def jsTruthy : Option String → Bool
  | none => false
  | some s => s ≠ ""

/-! oauth.ts: ephemeral sessionStorage wrappers -/

/-- `storePKCEVerifier` (oauth.ts): `sessionStorage.setItem('oauth_code_verifier', verifier)`. -/
def storePKCEVerifier (verifier : String) (s : Storage) : Storage :=
  { s with oauth_code_verifier := some verifier }

/-- `retrievePKCEVerifier` (oauth.ts): reads the key, removes it when the
value is truthy, and returns the read value. -/
def retrievePKCEVerifier (s : Storage) : Option String × Storage :=
  let verifier := s.oauth_code_verifier
  if jsTruthy verifier then (verifier, { s with oauth_code_verifier := none })
  else (verifier, s)

/-- `storeOAuthState` (oauth.ts): `sessionStorage.setItem('oauth_state', state)`. -/
def storeOAuthState (state : String) (s : Storage) : Storage :=
  { s with oauth_state := some state }

/-- `retrieveOAuthState` (oauth.ts): reads the key, removes it when the value
is truthy, and returns the read value. -/
def retrieveOAuthState (s : Storage) : Option String × Storage :=
  let state := s.oauth_state
  if jsTruthy state then (state, { s with oauth_state := none })
  else (state, s)

/-! oauth.ts: validateState -/

/-- JS `^` on the char codes involved: 32-bit truncation made explicit. -/
def jsXor (a b : Nat) : Nat := (a ^^^ b) % 4294967296

/-- JS `|=` accumulation: 32-bit truncation made explicit. -/
def jsOr (a b : Nat) : Nat := (a ||| b) % 4294967296

/-- The `result |= received.charCodeAt(i) ^ expected.charCodeAt(i)` loop of
`validateState`, over the (equal-length) char lists. -/
def xorAccum (a b : List Char) : Nat :=
  (List.zip a b).foldl (fun acc p => jsOr acc (jsXor p.1.toNat p.2.toNat)) 0

/-- `validateState` (oauth.ts lines 99–115): falsy-input check, length check,
then constant-time XOR accumulation.  A JS `null` argument is modelled by
`""` (both are falsy, and the function only tests falsiness). -/
def validateState (receivedState expectedState : String) : Bool :=
  if receivedState = "" ∨ expectedState = "" then false
  else if receivedState.length ≠ expectedState.length then false
  else xorAccum receivedState.data expectedState.data == 0

/-! AuthService (src/unnamed/part_006): token storage -/

/-- `AuthService.storeTokens` (part_006 lines 308–316): writes the token
record verbatim — `localStorage.setItem('auth_tokens', JSON.stringify(tokens))`.
No absolute-expiry field is computed or added. -/
def storeTokens (tokens : AuthTokens) (s : Storage) : Storage :=
  { s with auth_tokens := some (some tokens) }

/-- `AuthService.clearTokens` (part_006): `localStorage.removeItem('auth_tokens')`. -/
def clearTokens (s : Storage) : Storage :=
  { s with auth_tokens := none }

/-- `AuthService.getStoredTokens` (part_006 lines 291–302): reads and parses
the record; a malformed entry is purged (`clearTokens`) and reported absent. -/
def getStoredTokens (s : Storage) : Option AuthTokens × Storage :=
  match s.auth_tokens with
  | none => (none, s)
  | some none => (none, clearTokens s)
  | some (some t) => (some t, s)

/-- `AuthService.isAuthenticated` (part_006 lines 283–286):
`!!(tokens?.access_token)` — true iff a record parses and its
`access_token` is a non-empty (truthy) string. -/
def isAuthenticated (s : Storage) : Bool :=
  match (getStoredTokens s).1 with
  | none => false
  | some t => t.access_token ≠ ""

/-- `AuthService.logout` (part_006 lines 262–278): removes `auth_tokens`,
`oauth_code_verifier`, `oauth_state` and `auth_user`; never throws. -/
def logout (s : Storage) : Storage :=
  { clearTokens s with
      oauth_code_verifier := none
      oauth_state := none
      auth_user := none }

/-- `isTokenExpired` of the auth store (part_006 lines 394–402): with no
record it returns true; otherwise it compares
`Date.now() + expires_in * 1000` against `Date.now() + 5 * 60 * 1000`,
both computed at check time `now`. -/
def isTokenExpired (tokens : Option AuthTokens) (now : Nat) : Bool :=
  match tokens with
  | none => true
  | some t =>
    let expiryTime := now + t.expires_in * 1000
    let fiveMinutesFromNow := now + 5 * 60 * 1000
    expiryTime ≤ fiveMinutesFromNow

/-! AuthService (src/unnamed/part_006): network-facing operations.
The backend's behaviour for the single request a code path makes is the
`FetchResult` environment argument. -/

/-- Outcome of one `fetch` as the embedded code distinguishes it:
rejected promise (network error), non-`ok` HTTP response, or an `ok`
response whose JSON body is a token record. -/
inductive FetchResult where
  | networkError
  | httpError (status : Nat)
  | ok (body : AuthTokens)
deriving DecidableEq

/-- The ways `AuthService.refreshToken` can settle. -/
inductive RefreshOutcome where
  | noRefreshToken
  | refreshFailed
  | success (tokens : AuthTokens)
deriving DecidableEq

/-- `AuthService.refreshToken` (part_006 lines 183–222).  Returns the
outcome, the post-state of storage, and the number of network requests made
to the refresh endpoint.  Every failure path runs the `catch` block, which
clears the stored tokens before rethrowing. -/
def refreshToken (backend : FetchResult) (s : Storage) :
    RefreshOutcome × Storage × Nat :=
  let (currentTokens, s1) := getStoredTokens s
  match currentTokens with
  | none => (.noRefreshToken, clearTokens s1, 0)
  | some t =>
    if t.refresh_token = "" then (.noRefreshToken, clearTokens s1, 0)
    else
      match backend with
      | .networkError => (.refreshFailed, clearTokens s1, 1)
      | .httpError _ => (.refreshFailed, clearTokens s1, 1)
      | .ok newTokens => (.success newTokens, storeTokens newTokens s1, 1)

/-- The ways `AuthService.handleCallback` can settle. -/
inductive CallbackOutcome where
  | csrfMismatch
  | missingVerifier
  | exchangeFailed (status : Option Nat)
  | success (tokens : AuthTokens)
deriving DecidableEq

set_option linter.unusedVariables false in
/-- `AuthService.handleCallback` (part_006 lines 128–178), production branch.
Retrieves-and-clears the stored state, rejects on `!storedState ||
!validateState(state, storedState)` before any network activity, then
retrieves-and-clears the verifier, and only then contacts the
token-exchange endpoint.  Returns outcome, post-storage, and the number of
requests made to the exchange endpoint. -/
def handleCallback (code state : String) (backend : FetchResult) (s : Storage) :
    CallbackOutcome × Storage × Nat :=
  let (storedState, s1) := retrieveOAuthState s
  if ¬ jsTruthy storedState ∨ validateState state (storedState.getD "") = false then
    (.csrfMismatch, s1, 0)
  else
    let (codeVerifier, s2) := retrievePKCEVerifier s1
    if ¬ jsTruthy codeVerifier then (.missingVerifier, s2, 0)
    else
      match backend with
      | .networkError => (.exchangeFailed none, s2, 1)
      | .httpError status => (.exchangeFailed (some status), s2, 1)
      | .ok tokens => (.success tokens, storeTokens tokens s2, 1)

/-- The ways `AuthService.getCurrentUser` can settle (plus `outOfFuel`,
standing for a recursion that has not terminated within the given fuel). -/
inductive ProfileOutcome where
  | noAccessToken
  | refreshError (e : RefreshOutcome)
  | profileError (status : Nat)
  | success
  | noResponse
  | outOfFuel
deriving DecidableEq

/-- `AuthService.getCurrentUser` (part_006 lines 227–257).  Each attempt
consumes the next status from `profileStatuses` (the profile endpoint's
successive HTTP responses).  On a 401 the code awaits `refreshToken` and
then recurses on itself with no depth bound; `fuel` bounds the recursion of
the model only.  Returns the outcome, the post-storage, and the number of
`refreshToken` network requests performed across the whole call. -/
def getCurrentUser (profileStatuses : List Nat) (refreshBackend : FetchResult)
    (s : Storage) (fuel : Nat) : ProfileOutcome × Storage × Nat :=
  match fuel with
  | 0 => (.outOfFuel, s, 0)
  | fuel + 1 =>
    let (tokens, s1) := getStoredTokens s
    match tokens with
    | none => (.noAccessToken, s1, 0)
    | some t =>
      if t.access_token = "" then (.noAccessToken, s1, 0)
      else
        match profileStatuses with
        | [] => (.noResponse, s1, 0)
        | status :: rest =>
          if status = 401 then
            let (r, s2, n) := refreshToken refreshBackend s1
            match r with
            | .success _ =>
              let (o, s3, m) := getCurrentUser rest refreshBackend s2 fuel
              (o, s3, n + m)
            | e => (.refreshError e, s2, n)
          else if status = 200 then (.success, s1, 0)
          else (.profileError status, s1, 0)

/-! Concurrency model for `refreshToken`.  JS is single-threaded: an
invocation runs synchronously from its start to its `await fetch`, so two
concurrently issued calls both read the same starting storage and each
dispatch their own request before either response arrives.  The part_006
service has no in-flight guard, so the total request count is the sum of
the per-call counts taken from the shared starting state. -/

/-- Network requests to the refresh endpoint caused by two concurrent
`refreshToken` calls on the part_006 service. -/
def twoConcurrentRefreshCalls (backend : FetchResult) (s : Storage) : Nat :=
  (refreshToken backend s).2.2 + (refreshToken backend s).2.2

/-- What each of two concurrent callers observes, plus the total request
count, for the de-duplicating variant. -/
structure SFResultPair where
  result1 : RefreshOutcome
  result2 : RefreshOutcome
  networkCalls : Nat
deriving DecidableEq

/-- `AuthService.refreshToken` of the second auth-service variant (the copy
embedded in `src/project/src/test/mocks/auth.handlers.ts`, lines 618–666),
run as two concurrent calls.  Caller 1 finds `refreshInFlight` null, creates
the shared in-flight promise and dispatches the one request; caller 2 finds
`refreshInFlight` set and returns the same pending promise, making no
request; the single response then settles both callers identically. -/
def twoConcurrentRefreshSF (backend : FetchResult) (s : Storage) :
    SFResultPair × Storage :=
  let (currentTokens, s1) := getStoredTokens s
  match currentTokens with
  | none =>
    ({ result1 := .noRefreshToken, result2 := .noRefreshToken, networkCalls := 0 },
      clearTokens s1)
  | some t =>
    if t.refresh_token = "" then
      ({ result1 := .noRefreshToken, result2 := .noRefreshToken, networkCalls := 0 },
        clearTokens s1)
    else
      match backend with
      | .ok newTokens =>
        ({ result1 := .success newTokens, result2 := .success newTokens,
           networkCalls := 1 }, storeTokens newTokens s1)
      | .networkError =>
        ({ result1 := .refreshFailed, result2 := .refreshFailed, networkCalls := 1 }, s1)
      | .httpError _ =>
        ({ result1 := .refreshFailed, result2 := .refreshFailed, networkCalls := 1 }, s1)

/-- A storage modification that only rewrites the `expires_in` field of a
stored, well-parsed token record; used to state that `isAuthenticated` is
insensitive to expiry data. -/
def setExpiresIn (s : Storage) (e : Nat) : Storage :=
  match s.auth_tokens with
  | some (some t) => { s with auth_tokens := some (some { t with expires_in := e }) }
  | _ => s

/-! Concrete fixtures used by witnesses and counterexamples. -/

/-- A well-formed token record, one hour of validity. -/
def tokA : AuthTokens :=
  { access_token := "access_a", refresh_token := "refresh_a", expires_in := 3600,
    token_type := "Bearer", scope := "user-read-private" }

/-- The record a refresh or exchange returns in the fixtures. -/
def tokB : AuthTokens :=
  { access_token := "access_b", refresh_token := "refresh_b", expires_in := 3600,
    token_type := "Bearer", scope := "user-read-private" }

/-- Empty browser storage. -/
def emptyStorage : Storage :=
  { auth_tokens := none, auth_user := none, oauth_code_verifier := none,
    oauth_state := none }

/-- Storage holding a valid token record. -/
def authedStorage : Storage :=
  { emptyStorage with auth_tokens := some (some tokA) }

/-- Storage holding a pending OAuth round trip: a stored CSRF state and a
stored PKCE verifier. -/
def csrfStorage : Storage :=
  { emptyStorage with oauth_state := some "aaaa", oauth_code_verifier := some "vvvv" }

/-! Supporting lemmas for the `validateState` analysis -/

theorem charToNat_lt (c : Char) : c.toNat < 4294967296 :=
  UInt32.toNat_lt_size c.val

theorem char_toNat_inj {a b : Char} (h : a.toNat = b.toNat) : a = b :=
  Char.ext (UInt32.toNat.inj h)

theorem lor_eq_zero_iff (x y : Nat) : x ||| y = 0 ↔ x = 0 ∧ y = 0 := by
  constructor
  · intro h
    have hbits : ∀ i, x.testBit i = false ∧ y.testBit i = false := by
      intro i
      have hcongr := congrArg (fun n => n.testBit i) h
      simpa [Nat.testBit_or] using hcongr
    exact ⟨Nat.eq_of_testBit_eq fun i => by simp [(hbits i).1],
      Nat.eq_of_testBit_eq fun i => by simp [(hbits i).2]⟩
  · rintro ⟨rfl, rfl⟩
    simp

theorem pow_two_32 : (4294967296 : Nat) = 2 ^ 32 := by norm_num

theorem jsXor_eq {a b : Nat} (ha : a < 4294967296) (hb : b < 4294967296) :
    jsXor a b = a ^^^ b := by
  have hlt : a ^^^ b < 4294967296 :=
    pow_two_32 ▸ Nat.xor_lt_two_pow (pow_two_32 ▸ ha) (pow_two_32 ▸ hb)
  unfold jsXor
  exact Nat.mod_eq_of_lt hlt

theorem jsOr_eq {a b : Nat} (ha : a < 4294967296) (hb : b < 4294967296) :
    jsOr a b = a ||| b := by
  have hlt : a ||| b < 4294967296 :=
    pow_two_32 ▸ Nat.or_lt_two_pow (pow_two_32 ▸ ha) (pow_two_32 ▸ hb)
  unfold jsOr
  exact Nat.mod_eq_of_lt hlt

theorem xorAccum_aux (l : List (Char × Char)) (acc : Nat) (hacc : acc < 4294967296) :
    (List.foldl (fun a p => jsOr a (jsXor p.1.toNat p.2.toNat)) acc l = 0 ↔
      acc = 0 ∧ ∀ p ∈ l, p.1 = p.2) := by
  induction l generalizing acc with
  | nil => simp
  | cons p t ih =>
    have h1 : p.1.toNat < 4294967296 := charToNat_lt p.1
    have h2 : p.2.toNat < 4294967296 := charToNat_lt p.2
    have hxlt : p.1.toNat ^^^ p.2.toNat < 4294967296 :=
      pow_two_32 ▸ Nat.xor_lt_two_pow (pow_two_32 ▸ h1) (pow_two_32 ▸ h2)
    have hstep : jsOr acc (jsXor p.1.toNat p.2.toNat) =
        acc ||| (p.1.toNat ^^^ p.2.toNat) := by
      rw [jsXor_eq h1 h2, jsOr_eq hacc hxlt]
    have holt : acc ||| (p.1.toNat ^^^ p.2.toNat) < 4294967296 :=
      pow_two_32 ▸ Nat.or_lt_two_pow (pow_two_32 ▸ hacc) (pow_two_32 ▸ hxlt)
    simp only [List.foldl_cons]
    rw [hstep, ih _ holt, lor_eq_zero_iff]
    constructor
    · rintro ⟨⟨ha0, hx0⟩, hall⟩
      refine ⟨ha0, fun q hq => ?_⟩
      rcases List.mem_cons.mp hq with rfl | hq2
      · exact char_toNat_inj (Nat.xor_eq_zero.mp hx0)
      · exact hall q hq2
    · rintro ⟨ha0, hall⟩
      exact ⟨⟨ha0, Nat.xor_eq_zero.mpr
          (congrArg Char.toNat (hall p (List.mem_cons_self p t)))⟩,
        fun q hq => hall q (List.mem_cons_of_mem p hq)⟩

theorem mem_zip_self {α : Type} {l : List α} {p : α × α} (hp : p ∈ l.zip l) :
    p.1 = p.2 := by
  induction l with
  | nil => cases hp
  | cons x t ih =>
    rw [List.zip_cons_cons] at hp
    rcases List.mem_cons.mp hp with h | h
    · rw [h]
    · exact ih h

theorem list_eq_of_zip :
    ∀ (a b : List Char), a.length = b.length → (∀ p ∈ a.zip b, p.1 = p.2) → a = b
  | [], [], _, _ => rfl
  | [], _ :: _, h, _ => by simp at h
  | _ :: _, [], h, _ => by simp at h
  | x :: xs, y :: ys, h, hall => by
    have hx : x = y := hall (x, y) (by rw [List.zip_cons_cons]; exact List.mem_cons_self _ _)
    have ht : xs = ys := list_eq_of_zip xs ys (by simpa using h)
      (fun p hp => hall p (by rw [List.zip_cons_cons]; exact List.mem_cons_of_mem _ hp))
    rw [hx, ht]

theorem xorAccum_eq_zero_iff (a b : List Char) (h : a.length = b.length) :
    xorAccum a b = 0 ↔ a = b := by
  unfold xorAccum
  rw [xorAccum_aux _ 0 (by norm_num)]
  simp only [true_and]
  constructor
  · intro hall
    exact list_eq_of_zip a b h hall
  · rintro rfl p hp
    exact mem_zip_self hp

theorem string_length_data (s : String) : s.length = s.data.length := by
  cases s
  rfl

/-! Claim theorems -/

/-- Claim C6: `validateState(received, expected)` returns true if and only if
both inputs are non-empty and equal character-for-character; it returns
false whenever either input is null or empty (null modelled by `""`, both
being JS-falsy), the lengths differ, or two equal-length strings differ at
at least one position. -/
theorem c6_validateState_correct (receivedState expectedState : String) :
    validateState receivedState expectedState = true ↔
      receivedState ≠ "" ∧ expectedState ≠ "" ∧ receivedState = expectedState := by
  unfold validateState
  by_cases hemp : receivedState = "" ∨ expectedState = ""
  · rw [if_pos hemp]
    simp only [Bool.false_eq_true, false_iff]
    rintro ⟨hr, he, _⟩
    rcases hemp with h | h
    · exact hr h
    · exact he h
  · rw [if_neg hemp]
    push_neg at hemp
    obtain ⟨hr, he⟩ := hemp
    by_cases hlen : receivedState.length ≠ expectedState.length
    · rw [if_pos hlen]
      simp only [Bool.false_eq_true, false_iff]
      rintro ⟨_, _, rfl⟩
      exact hlen rfl
    · rw [if_neg hlen]
      push_neg at hlen
      have hdata : receivedState.data.length = expectedState.data.length := by
        rw [← string_length_data, ← string_length_data, hlen]
      rw [beq_iff_eq, xorAccum_eq_zero_iff _ _ hdata]
      constructor
      · intro h
        exact ⟨hr, he, String.ext h⟩
      · rintro ⟨_, _, rfl⟩
        rfl

/-- Claim C9: `logout()` is idempotent: from any starting state, invoking it
twice yields the same final state as invoking it once — no stored tokens, no
residual PKCE verifier or CSRF state, and `isAuthenticated` is false
afterwards (the code catches all errors, so no error escapes). -/
theorem c9_logout_idempotent (s : Storage) :
    logout (logout s) = logout s ∧
    (logout s).auth_tokens = none ∧
    (logout s).oauth_code_verifier = none ∧
    (logout s).oauth_state = none ∧
    isAuthenticated (logout s) = false :=
  ⟨rfl, rfl, rfl, rfl, rfl⟩

/-- Claim C10: `isAuthenticated()` returns true iff a persisted token record
exists, parses successfully, and contains a non-empty `access_token`; it
performs no expiry check — rewriting the stored record's `expires_in` to any
value (for example 0, long past expiry) never changes the result. -/
theorem c10_isAuthenticated_no_expiry_check (s : Storage) :
    (isAuthenticated s = true ↔
      ∃ t, s.auth_tokens = some (some t) ∧ t.access_token ≠ "") ∧
    ∀ e, isAuthenticated (setExpiresIn s e) = isAuthenticated s := by
  obtain ⟨a, u, v, os⟩ := s
  constructor
  · cases a with
    | none => simp [isAuthenticated, getStoredTokens]
    | some o =>
      cases o with
      | none => simp [isAuthenticated, getStoredTokens, clearTokens]
      | some t => simp [isAuthenticated, getStoredTokens]
  · intro e
    cases a with
    | none => rfl
    | some o =>
      cases o with
      | none => rfl
      | some t => simp [isAuthenticated, getStoredTokens, setExpiresIn]

/-- Claim C7: whenever `refreshToken` fails — no refresh token stored, the
network request fails, or the backend returns a non-OK response — the stored
tokens are cleared before the error propagates: afterwards the store holds
no record and `isAuthenticated()` is false. -/
theorem c7_refresh_failure_clears (backend : FetchResult) (s : Storage)
    (h : (refreshToken backend s).1 = RefreshOutcome.noRefreshToken ∨
         (refreshToken backend s).1 = RefreshOutcome.refreshFailed) :
    (refreshToken backend s).2.1.auth_tokens = none ∧
    isAuthenticated (refreshToken backend s).2.1 = false := by
  obtain ⟨a, u, v, os⟩ := s
  cases a with
  | none => simp [refreshToken, getStoredTokens, clearTokens, isAuthenticated]
  | some o =>
    cases o with
    | none => simp [refreshToken, getStoredTokens, clearTokens, isAuthenticated]
    | some t =>
      by_cases ht : t.refresh_token = ""
      · simp [refreshToken, getStoredTokens, clearTokens, isAuthenticated, ht]
      · cases backend with
        | networkError =>
          simp [refreshToken, getStoredTokens, clearTokens, isAuthenticated, ht]
        | httpError status =>
          simp [refreshToken, getStoredTokens, clearTokens, isAuthenticated, ht]
        | ok newTokens =>
          exfalso
          simp [refreshToken, getStoredTokens, ht] at h

/-- Witness for C7: scenario D of the spec — refresh against a backend
answering `400` from a state holding tokens leaves the store empty and
`isAuthenticated` false. -/
theorem c7_refresh_failure_clears_witness :
    ((refreshToken (FetchResult.httpError 400) authedStorage).1 =
        RefreshOutcome.noRefreshToken ∨
      (refreshToken (FetchResult.httpError 400) authedStorage).1 =
        RefreshOutcome.refreshFailed) ∧
    (refreshToken (FetchResult.httpError 400) authedStorage).2.1.auth_tokens = none ∧
    isAuthenticated (refreshToken (FetchResult.httpError 400) authedStorage).2.1 = false :=
  ⟨Or.inr (by decide), c7_refresh_failure_clears _ _ (Or.inr (by decide))⟩

/-- Claim C1 evaluated on the code: `storeTokens` persists the record
verbatim (no `expiresAtEpochMs` is computed), and `isTokenExpired`
recomputes "expiry" from the check-time clock, so its value never changes
as time advances: for the one-hour record `tokA` it is false at every
`now`, in particular at `now = 10000000` ms even though a record saved at
epoch 0 was, per the claim, expired from `3300000` ms on. -/
theorem c1_expiry_never_advances :
    (∀ now, isTokenExpired (some tokA) now = false) ∧
    0 + tokA.expires_in * 1000 - 300000 ≤ 10000000 ∧
    isTokenExpired (some tokA) 10000000 = false ∧
    isTokenExpired none 0 = true ∧
    (storeTokens tokA emptyStorage).auth_tokens = some (some tokA) := by
  refine ⟨?_, by decide, by decide, by decide, rfl⟩
  intro now
  simp only [isTokenExpired, tokA, decide_eq_false_iff_not]
  omega

/-- Counterexample to claim C2 as stated: from a state holding a valid
refresh token, two concurrent `refreshToken` calls on the part_006 service
issue two network requests to the refresh endpoint, not one. -/
theorem c2_counterexample :
    twoConcurrentRefreshCalls (FetchResult.ok tokB) authedStorage = 2 ∧
    twoConcurrentRefreshCalls (FetchResult.ok tokB) authedStorage ≠ 1 := by
  decide

/-- Claim C2 as amended: the part_006 `refreshToken` has no single-flight
de-duplication — two concurrent calls always make two network requests —
while the second auth-service variant (in auth.handlers.ts) de-duplicates:
there, two concurrent calls make exactly one request and both callers
observe the same result. -/
theorem c2_no_single_flight_in_part006 (backend : FetchResult) (s : Storage)
    (t : AuthTokens) (ht : (getStoredTokens s).1 = some t)
    (hr : t.refresh_token ≠ "") :
    twoConcurrentRefreshCalls backend s = 2 ∧
    (twoConcurrentRefreshSF backend s).1.networkCalls = 1 ∧
    (twoConcurrentRefreshSF backend s).1.result1 =
      (twoConcurrentRefreshSF backend s).1.result2 := by
  obtain ⟨a, u, v, os⟩ := s
  cases a with
  | none => simp [getStoredTokens] at ht
  | some o =>
    cases o with
    | none => simp [getStoredTokens] at ht
    | some t2 =>
      have ht2 : t2 = t := by simpa [getStoredTokens] using ht
      subst ht2
      cases backend with
      | networkError =>
        simp [twoConcurrentRefreshCalls, twoConcurrentRefreshSF, refreshToken,
          getStoredTokens, hr]
      | httpError status =>
        simp [twoConcurrentRefreshCalls, twoConcurrentRefreshSF, refreshToken,
          getStoredTokens, hr]
      | ok newTokens =>
        simp [twoConcurrentRefreshCalls, twoConcurrentRefreshSF, refreshToken,
          getStoredTokens, hr]

/-- Witness for the amended C2, at the fixture state and a succeeding
backend. -/
theorem c2_no_single_flight_in_part006_witness :
    (getStoredTokens authedStorage).1 = some tokA ∧ tokA.refresh_token ≠ "" ∧
    (twoConcurrentRefreshCalls (FetchResult.ok tokB) authedStorage = 2 ∧
      (twoConcurrentRefreshSF (FetchResult.ok tokB) authedStorage).1.networkCalls = 1 ∧
      (twoConcurrentRefreshSF (FetchResult.ok tokB) authedStorage).1.result1 =
        (twoConcurrentRefreshSF (FetchResult.ok tokB) authedStorage).1.result2) :=
  ⟨by decide, by decide,
    c2_no_single_flight_in_part006 (FetchResult.ok tokB) authedStorage tokA
      (by decide) (by decide)⟩

/-- Claim C3 evaluated on the code: against a profile endpoint answering
401, 401, 401, 200 and an always-succeeding refresh endpoint, the part_006
`getCurrentUser` performs three refreshes and three retries and finally
succeeds — the claim's bound of exactly one refresh and one retry, with a
second 401 surfaced as Unauthorized, does not hold. -/
theorem c3_unbounded_retry_eval :
    (getCurrentUser [401, 401, 401, 200] (FetchResult.ok tokB) authedStorage 10).1 =
      ProfileOutcome.success ∧
    (getCurrentUser [401, 401, 401, 200] (FetchResult.ok tokB) authedStorage 10).2.2 = 3 := by
  decide

/-- Claim C4: whenever `handleCallback(code, state)` finds the stored CSRF
state absent (or JS-falsy), or `validateState` rejects it, the call fails
with the CSRF-mismatch error and performs zero network requests to the
token-exchange endpoint. -/
theorem c4_csrf_blocks_network (code state : String) (backend : FetchResult)
    (s : Storage)
    (h : s.oauth_state = none ∨
      ∃ st, s.oauth_state = some st ∧ validateState state st = false) :
    (handleCallback code state backend s).1 = CallbackOutcome.csrfMismatch ∧
    (handleCallback code state backend s).2.2 = 0 := by
  rcases h with h | ⟨st, hst, hval⟩
  · simp [handleCallback, retrieveOAuthState, jsTruthy, h]
  · by_cases hemp : st = ""
    · subst hemp
      simp [handleCallback, retrieveOAuthState, jsTruthy, hst]
    · simp [handleCallback, retrieveOAuthState, jsTruthy, hst, hemp, hval]

/-- Witness for C4: scenario B of the spec — stored state `"aaaa"`, received
state `"bbbb"`. -/
theorem c4_csrf_blocks_network_witness :
    csrfStorage.oauth_state = some "aaaa" ∧ validateState "bbbb" "aaaa" = false ∧
    (handleCallback "abc" "bbbb" (FetchResult.ok tokB) csrfStorage).1 =
      CallbackOutcome.csrfMismatch ∧
    (handleCallback "abc" "bbbb" (FetchResult.ok tokB) csrfStorage).2.2 = 0 :=
  ⟨by decide, by decide,
    c4_csrf_blocks_network "abc" "bbbb" (FetchResult.ok tokB) csrfStorage
      (Or.inr ⟨"aaaa", by decide, by decide⟩)⟩

/-- Counterexample to claim C5 as stated: an invocation of `handleCallback`
that fails with a CSRF mismatch completes with the stored PKCE verifier
still present in ephemeral storage — it is not cleared. -/
theorem c5_counterexample :
    (handleCallback "abc" "bbbb" (FetchResult.ok tokB) csrfStorage).1 =
      CallbackOutcome.csrfMismatch ∧
    (handleCallback "abc" "bbbb" (FetchResult.ok tokB) csrfStorage).2.1.oauth_code_verifier =
      some "vvvv" := by
  decide

/-- Claim C5 as amended: a (non-empty) stored CSRF state is cleared by every
invocation of `handleCallback`; the stored PKCE verifier is cleared by every
invocation in which state validation succeeds (whatever the exchange then
does), but an invocation failing with a CSRF mismatch leaves the stored
verifier untouched. -/
theorem c5_ephemeral_cleanup_amended (code state : String) (backend : FetchResult)
    (s : Storage) (st : String) (hst : s.oauth_state = some st) (hne : st ≠ "") :
    (handleCallback code state backend s).2.1.oauth_state = none ∧
    (validateState state st = false →
      (handleCallback code state backend s).2.1.oauth_code_verifier =
        s.oauth_code_verifier) ∧
    (validateState state st = true → ∀ v, s.oauth_code_verifier = some v → v ≠ "" →
      (handleCallback code state backend s).2.1.oauth_code_verifier = none) := by
  obtain ⟨a, u, v0, os⟩ := s
  have hos : os = some st := hst
  subst hos
  by_cases hval : validateState state st = true
  · refine ⟨?_, ?_, ?_⟩
    · cases hv0 : v0 with
      | none =>
        simp [handleCallback, retrieveOAuthState, retrievePKCEVerifier, jsTruthy,
          hne, hval]
      | some v =>
        by_cases hvemp : v = ""
        · subst hvemp
          simp [handleCallback, retrieveOAuthState, retrievePKCEVerifier, jsTruthy,
            hne, hval]
        · cases backend <;>
            simp [handleCallback, retrieveOAuthState, retrievePKCEVerifier,
              storeTokens, jsTruthy, hne, hval, hvemp]
    · intro hcontra
      rw [hval] at hcontra
      cases hcontra
    · intro _ v hv hvne
      have hv0 : v0 = some v := hv
      subst hv0
      cases backend <;>
        simp [handleCallback, retrieveOAuthState, retrievePKCEVerifier,
          storeTokens, jsTruthy, hne, hval, hvne]
  · have hval2 : validateState state st = false := by
      cases h2 : validateState state st with
      | false => rfl
      | true => exact absurd h2 hval
    refine ⟨?_, ?_, ?_⟩
    · simp [handleCallback, retrieveOAuthState, jsTruthy, hne, hval2]
    · intro _
      simp [handleCallback, retrieveOAuthState, jsTruthy, hne, hval2]
    · intro hcontra
      exact absurd hcontra hval

/-- Witness for the amended C5: both the mismatch branch (verifier kept) and
the validated branch (verifier cleared) at concrete states. -/
theorem c5_ephemeral_cleanup_amended_witness :
    csrfStorage.oauth_state = some "aaaa" ∧ "aaaa" ≠ "" ∧
    validateState "bbbb" "aaaa" = false ∧ validateState "aaaa" "aaaa" = true ∧
    csrfStorage.oauth_code_verifier = some "vvvv" ∧ "vvvv" ≠ "" ∧
    (handleCallback "abc" "bbbb" (FetchResult.ok tokB) csrfStorage).2.1.oauth_state = none ∧
    (handleCallback "abc" "bbbb" (FetchResult.ok tokB) csrfStorage).2.1.oauth_code_verifier =
      csrfStorage.oauth_code_verifier ∧
    (handleCallback "abc" "aaaa" (FetchResult.ok tokB) csrfStorage).2.1.oauth_code_verifier =
      none :=
  ⟨by decide, by decide, by decide, by decide, by decide, by decide,
    (c5_ephemeral_cleanup_amended "abc" "bbbb" (FetchResult.ok tokB) csrfStorage
      "aaaa" (by decide) (by decide)).1,
    (c5_ephemeral_cleanup_amended "abc" "bbbb" (FetchResult.ok tokB) csrfStorage
      "aaaa" (by decide) (by decide)).2.1 (by decide),
    (c5_ephemeral_cleanup_amended "abc" "aaaa" (FetchResult.ok tokB) csrfStorage
      "aaaa" (by decide) (by decide)).2.2 (by decide) "vvvv" (by decide) (by decide)⟩

/-- Counterexample to claim C8 as stated: for the value `v = ""` (JS-falsy),
the first retrieval returns the stored value but does not remove it, and the
second retrieval returns it again rather than "absent". -/
theorem c8_counterexample :
    (retrievePKCEVerifier (storePKCEVerifier "" emptyStorage)).1 = some "" ∧
    (retrievePKCEVerifier
        ((retrievePKCEVerifier (storePKCEVerifier "" emptyStorage)).2)).1 =
      some "" := by
  decide

/-- Claim C8 as amended: for every non-empty value `v`, after
`storePKCEVerifier v` the first `retrievePKCEVerifier` returns `v` and
removes it, and retrieval from a cleared slot returns absent and leaves
storage unchanged (so every subsequent call returns absent until a new
value is stored); the same holds for the `storeOAuthState` /
`retrieveOAuthState` pair. -/
theorem c8_oneshot_retrieval_amended (v : String) (hv : v ≠ "") (s : Storage) :
    (retrievePKCEVerifier (storePKCEVerifier v s)).1 = some v ∧
    (retrievePKCEVerifier (storePKCEVerifier v s)).2.oauth_code_verifier = none ∧
    (∀ s2 : Storage, s2.oauth_code_verifier = none →
      (retrievePKCEVerifier s2).1 = none ∧ (retrievePKCEVerifier s2).2 = s2) ∧
    (retrieveOAuthState (storeOAuthState v s)).1 = some v ∧
    (retrieveOAuthState (storeOAuthState v s)).2.oauth_state = none ∧
    (∀ s2 : Storage, s2.oauth_state = none →
      (retrieveOAuthState s2).1 = none ∧ (retrieveOAuthState s2).2 = s2) := by
  refine ⟨?_, ?_, ?_, ?_, ?_, ?_⟩
  · simp [storePKCEVerifier, retrievePKCEVerifier, jsTruthy, hv]
  · simp [storePKCEVerifier, retrievePKCEVerifier, jsTruthy, hv]
  · intro s2 h2
    constructor <;> simp [retrievePKCEVerifier, jsTruthy, h2]
  · simp [storeOAuthState, retrieveOAuthState, jsTruthy, hv]
  · simp [storeOAuthState, retrieveOAuthState, jsTruthy, hv]
  · intro s2 h2
    constructor <;> simp [retrieveOAuthState, jsTruthy, h2]

/-- Witness for the amended C8 at `v = "verifier123"` and empty storage:
store, first destructive retrieval, then second retrieval from the cleared
slot returns absent. -/
theorem c8_oneshot_retrieval_amended_witness :
    "verifier123" ≠ "" ∧
    (retrievePKCEVerifier (storePKCEVerifier "verifier123" emptyStorage)).1 =
      some "verifier123" ∧
    (retrievePKCEVerifier
        (storePKCEVerifier "verifier123" emptyStorage)).2.oauth_code_verifier = none ∧
    (retrievePKCEVerifier
        ((retrievePKCEVerifier (storePKCEVerifier "verifier123" emptyStorage)).2)).1 =
      none ∧
    (retrieveOAuthState (storeOAuthState "verifier123" emptyStorage)).1 =
      some "verifier123" ∧
    (retrieveOAuthState
        (storeOAuthState "verifier123" emptyStorage)).2.oauth_state = none ∧
    (retrieveOAuthState
        ((retrieveOAuthState (storeOAuthState "verifier123" emptyStorage)).2)).1 =
      none :=
  have h := c8_oneshot_retrieval_amended "verifier123" (by decide) emptyStorage
  ⟨by decide, h.1, h.2.1,
    (h.2.2.1 (retrievePKCEVerifier (storePKCEVerifier "verifier123" emptyStorage)).2
      h.2.1).1,
    h.2.2.2.1, h.2.2.2.2.1,
    (h.2.2.2.2.2 (retrieveOAuthState (storeOAuthState "verifier123" emptyStorage)).2
      h.2.2.2.2.1).1⟩

end VibeGuess
